import Mathlib

/-!
# Verification of the k8s-cicd-lab dashboard stack

Shallow embedding of the repository's three source files:

* `src/services/backend/src/app.service.ts` — the NestJS `AppService` with
  `getHello`, `getHealth`, `getInfo`.  The ambient process facts the service
  reads (clock, uptime counter, `NODE_ENV`, `process.version`) are passed
  explicitly as an `Ambient` record; an ISO-8601 instant is modelled as the
  clock reading itself (a natural number of milliseconds), since string
  formatting of instants is out of scope.
* `src/unnamed/part_000` — the React dashboard (`App.tsx`): the `fetchData`
  refresh cycle as a transition on `ViewState`, with the outcomes of the three
  `fetch` calls (resolution/rejection, HTTP `ok` flag, body-parse result)
  supplied as a `CycleEnv`; and `formatUptime` over ℚ with JavaScript
  `Math.floor` / `%` semantics.
-/

/-! ## Backend: `AppService` (app.service.ts) -/

/-- Return value of `AppService.getHealth`:
`{ status, timestamp: new Date().toISOString(), uptime: process.uptime() }`.
The instant is modelled as a `Nat` clock reading; `process.uptime()` returns a
floating-point number of seconds, modelled as ℚ. -/
structure HealthSnapshot where
  status : String
  timestamp : Nat
  uptime : ℚ
deriving Repr, DecidableEq

/-- Return value of `AppService.getInfo`. -/
structure ServiceInfo where
  name : String
  version : String
  environment : String
  nodeVersion : String
deriving Repr, DecidableEq

/-- The ambient process facts the backend reads: the process clock, the
`process.uptime()` counter, the `NODE_ENV` environment variable (`none` when
unset) and `process.version`. -/
structure Ambient where
  clock : Nat
  uptime : ℚ
  nodeEnv : Option String
  nodeVersion : String
deriving Repr, DecidableEq

/-- JavaScript `a || d` for `a = process.env.NODE_ENV`: `undefined` and the
empty string are both falsy, so either yields the default. -/
def jsOrDefault (v : Option String) (d : String) : String :=
  match v with
  | none => d
  | some s => if s = "" then d else s

namespace AppService

/-- `getHello(): string { return 'Hello from NestJS Backend!'; }` -/
def getHello (_a : Ambient) : String :=
  "Hello from NestJS Backend!"

/-- `getHealth()` of `app.service.ts`. -/
def getHealth (a : Ambient) : HealthSnapshot :=
  { status := "ok"
    timestamp := a.clock
    uptime := a.uptime }

/-- `getInfo()` of `app.service.ts`. -/
def getInfo (a : Ambient) : ServiceInfo :=
  { name := "K8s CI/CD Lab Backend"
    version := "1.0.0"
    environment := jsOrDefault a.nodeEnv "development"
    nodeVersion := a.nodeVersion }

end AppService

/-! ## Frontend: `App.tsx` (src/unnamed/part_000) -/

/-- The `HealthData` interface of `App.tsx` (the parsed `/api/health` body):
`{ status: string; timestamp: string; uptime: number }`. -/
structure HealthData where
  status : String
  timestamp : String
  uptime : ℚ
deriving Repr, DecidableEq

/-- The `InfoData` interface of `App.tsx` (the parsed `/api/info` body). -/
structure InfoData where
  name : String
  version : String
  environment : String
  nodeVersion : String
deriving Repr, DecidableEq

/-- A JavaScript thrown value as `fetchData`'s catch block distinguishes it:
either an `Error` instance carrying a `message`, or any other value. -/
inductive JsThrown where
  | err (message : String)
  | other
deriving Repr, DecidableEq

/-- `err instanceof Error ? err.message : 'Unknown error occurred'`. -/
def JsThrown.displayMessage : JsThrown → String
  | .err m => m
  | .other => "Unknown error occurred"

instance {ε α : Type} [DecidableEq ε] [DecidableEq α] : DecidableEq (Except ε α) :=
  fun x y =>
    match x, y with
    | .ok a, .ok b =>
      if h : a = b then .isTrue (by rw [h]) else .isFalse (by simp [h])
    | .error a, .error b =>
      if h : a = b then .isTrue (by rw [h]) else .isFalse (by simp [h])
    | .ok _, .error _ => .isFalse (by simp)
    | .error _, .ok _ => .isFalse (by simp)

/-- A settled `fetch` response: the HTTP `ok` flag, and the result of reading
the body (`.json()` / `.text()`), which can itself reject on a malformed body.
The body is only consumed when `ok` is true. -/
structure FetchResponse (α : Type) where
  ok : Bool
  body : Except JsThrown α
deriving Repr, DecidableEq

/-- The client `ViewState`: the six `useState` hooks of `App.tsx`.
`lastRefresh` is a `Date`, modelled as a `Nat` instant. -/
structure ViewState where
  health : Option HealthData
  info : Option InfoData
  message : String
  loading : Bool
  error : Option String
  lastRefresh : Nat
deriving Repr, DecidableEq

/-- The initial `ViewState` wired by the `useState` initialisers
(`new Date()` at mount time is the `start` instant). -/
def initialViewState (start : Nat) : ViewState :=
  { health := none
    info := none
    message := ""
    loading := true
    error := none
    lastRefresh := start }

/-- The nondeterministic environment one refresh cycle runs against: how each
of the three `fetch` promises settles (rejection with a thrown value, or a
response), and the instant `new Date()` reads on the success path. -/
structure CycleEnv where
  healthRes : Except JsThrown (FetchResponse HealthData)
  infoRes : Except JsThrown (FetchResponse InfoData)
  messageRes : Except JsThrown (FetchResponse String)
  now : Nat
deriving Repr, DecidableEq

/-- The `try` block of `fetchData`: await the three fetches (`Promise.all`
rethrows a rejection), throw the fixed `Error` if any response is not `ok`,
then parse the three bodies in order and apply the success updates. -/
def fetchDataTry (env : CycleEnv) (s : ViewState) :
    Except JsThrown ViewState :=
  match env.healthRes with
  | .error e => .error e
  | .ok healthRes =>
  match env.infoRes with
  | .error e => .error e
  | .ok infoRes =>
  match env.messageRes with
  | .error e => .error e
  | .ok messageRes =>
  if !healthRes.ok || !infoRes.ok || !messageRes.ok then
    .error (JsThrown.err "Failed to fetch data from backend")
  else
  match healthRes.body with
  | .error e => .error e
  | .ok healthData =>
  match infoRes.body with
  | .error e => .error e
  | .ok infoData =>
  match messageRes.body with
  | .error e => .error e
  | .ok messageData =>
  .ok { s with
    health := some healthData
    info := some infoData
    message := messageData
    lastRefresh := env.now }

/-- The opening statements of `fetchData`:
`setLoading(true); setError(null)`. -/
def cycleStart (s : ViewState) : ViewState :=
  { s with loading := true, error := none }

/-- One full `fetchData` refresh cycle: the opening updates, the `try` block,
the `catch` block setting `error` to the thrown value's display message, and
the `finally` block setting `loading = false`. -/
def fetchData (env : CycleEnv) (s0 : ViewState) : ViewState :=
  let s1 := cycleStart s0
  let s2 :=
    match fetchDataTry env s1 with
    | .ok s => s
    | .error e => { s1 with error := some e.displayMessage }
  { s2 with loading := false }

/-! ## Frontend: `formatUptime` -/

/-- JavaScript `Math.trunc` on a rational: rounding toward zero.  The JS `%`
operator truncates the quotient toward zero. -/
def jsTrunc (q : ℚ) : ℤ :=
  if 0 ≤ q then ⌊q⌋ else -⌊-q⌋

/-- JavaScript `a % b`: `a - b * Math.trunc(a / b)` (sign follows the
dividend). -/
def jsMod (a b : ℚ) : ℚ :=
  a - b * (jsTrunc (a / b) : ℚ)

/-- `formatUptime` of `App.tsx`: hours, minutes and seconds components by
`Math.floor` and `%`, rendered as a template string. -/
def formatUptime (seconds : ℚ) : String :=
  let hours : ℤ := ⌊seconds / 3600⌋
  let minutes : ℤ := ⌊(jsMod seconds 3600) / 60⌋
  let secs : ℤ := ⌊jsMod seconds 60⌋
  toString hours ++ "h " ++ toString minutes ++ "m " ++ toString secs ++ "s"

/-! ## Concrete fixtures (bodies, cycle environments, ambients) -/

/-- The parsed health body of the spec's concrete scenario. -/
def sampleHealthBody : HealthData :=
  { status := "ok", timestamp := "2024-01-01T00:00:00Z", uptime := 5 }

/-- The parsed info body of the spec's concrete scenario. -/
def sampleInfoBody : InfoData :=
  { name := "X", version := "1.0.0", environment := "dev", nodeVersion := "v20" }

/-- A cycle environment in which all three requests succeed and parse. -/
def okEnv : CycleEnv :=
  { healthRes := .ok { ok := true, body := .ok sampleHealthBody }
    infoRes := .ok { ok := true, body := .ok sampleInfoBody }
    messageRes := .ok { ok := true, body := .ok "hi" }
    now := 42 }

/-- A cycle environment in which the info endpoint returns a non-2xx status
while health and greeting succeed. -/
def infoFailEnv : CycleEnv :=
  { healthRes := .ok { ok := true, body := .ok sampleHealthBody }
    infoRes := .ok { ok := false, body := .ok sampleInfoBody }
    messageRes := .ok { ok := true, body := .ok "hi" }
    now := 42 }

/-- A cycle environment in which the health fetch itself rejects with a
network `Error` (so `Promise.all` rejects before any status is checked). -/
def networkFailEnv : CycleEnv :=
  { healthRes := .error (.err "NetworkError when attempting to fetch resource.")
    infoRes := .ok { ok := true, body := .ok sampleInfoBody }
    messageRes := .ok { ok := true, body := .ok "hi" }
    now := 42 }

/-- A pre-cycle view state that already displays data from an earlier
successful refresh. -/
def prevState : ViewState :=
  { health := some sampleHealthBody
    info := some sampleInfoBody
    message := "hi"
    loading := false
    error := none
    lastRefresh := 10 }

/-- A concrete ambient for the backend. -/
def sampleAmbient : Ambient :=
  { clock := 1000, uptime := 5, nodeEnv := some "production", nodeVersion := "v20.11.1" }

/-- The same process observed later: clock and uptime have advanced. -/
def laterAmbient : Ambient :=
  { clock := 2000, uptime := 35, nodeEnv := some "production", nodeVersion := "v20.11.1" }

/-- An ambient in which `NODE_ENV` is unset. -/
def unsetEnvAmbient : Ambient :=
  { clock := 0, uptime := 0, nodeEnv := none, nodeVersion := "v20.11.1" }

/-- An ambient in which `NODE_ENV` is set to the empty string. -/
def emptyEnvAmbient : Ambient :=
  { clock := 0, uptime := 0, nodeEnv := some "", nodeVersion := "v20.11.1" }

/-! ## Helper lemmas -/

theorem jsOrDefault_ne_empty (v : Option String) (d : String) (hd : d ≠ "") :
    jsOrDefault v d ≠ "" := by
  unfold jsOrDefault
  match v with
  | none => exact hd
  | some s =>
    by_cases hs : s = "" <;> simp [hs, hd]

theorem jsMod_of_nonneg (a b : ℚ) (ha : 0 ≤ a) (hb : 0 < b) :
    jsMod a b = a - b * ⌊a / b⌋ := by
  unfold jsMod jsTrunc
  rw [if_pos (div_nonneg ha hb.le)]

theorem jsMod_eq_fract (a b : ℚ) (ha : 0 ≤ a) (hb : 0 < b) :
    jsMod a b = b * Int.fract (a / b) := by
  rw [jsMod_of_nonneg a b ha hb, Int.fract]
  field_simp

theorem jsMod_nonneg (a b : ℚ) (ha : 0 ≤ a) (hb : 0 < b) : 0 ≤ jsMod a b := by
  rw [jsMod_eq_fract a b ha hb]
  exact mul_nonneg hb.le (Int.fract_nonneg _)

theorem jsMod_lt (a b : ℚ) (ha : 0 ≤ a) (hb : 0 < b) : jsMod a b < b := by
  rw [jsMod_eq_fract a b ha hb]
  nlinarith [Int.fract_lt_one (a / b), Int.fract_nonneg (a / b)]

/-! ## Claims -/

/-- C1: in every refresh cycle in which the three fetches settle to responses
and at least one response has a non-success status, no partial update is
applied: `health`, `info`, `message` and `lastRefresh` keep their pre-cycle
values and `error` ends as the fixed message. -/
theorem fetchData_all_or_nothing (env : CycleEnv) (s0 : ViewState)
    (hr : FetchResponse HealthData) (ir : FetchResponse InfoData)
    (mr : FetchResponse String)
    (hh : env.healthRes = .ok hr) (hi : env.infoRes = .ok ir)
    (hm : env.messageRes = .ok mr)
    (hfail : hr.ok = false ∨ ir.ok = false ∨ mr.ok = false) :
    (fetchData env s0).health = s0.health ∧
    (fetchData env s0).info = s0.info ∧
    (fetchData env s0).message = s0.message ∧
    (fetchData env s0).lastRefresh = s0.lastRefresh ∧
    (fetchData env s0).error = some "Failed to fetch data from backend" := by
  have hcond : (!hr.ok || !ir.ok || !mr.ok) = true := by
    rcases hfail with h | h | h <;> simp [h]
  simp [fetchData, fetchDataTry, cycleStart, hh, hi, hm, hcond, JsThrown.displayMessage]

/-- Witness for C1: the spec's own test scenario (info returns non-2xx while
health and greeting succeed) applied to a state already displaying data. -/
theorem fetchData_all_or_nothing_witness :
    (fetchData infoFailEnv prevState).health = prevState.health ∧
    (fetchData infoFailEnv prevState).info = prevState.info ∧
    (fetchData infoFailEnv prevState).message = prevState.message ∧
    (fetchData infoFailEnv prevState).lastRefresh = prevState.lastRefresh ∧
    (fetchData infoFailEnv prevState).error = some "Failed to fetch data from backend" :=
  fetchData_all_or_nothing infoFailEnv prevState _ _ _ rfl rfl rfl (Or.inr (Or.inl rfl))

/-- C2 as stated is false: a failing cycle does not always display one single
fixed string.  When the health fetch rejects with a network `Error`, the catch
block displays that error's own message, not the fixed
"Failed to fetch data from backend". -/
theorem fetchData_fixed_error_counterexample :
    fetchDataTry networkFailEnv (cycleStart prevState) =
      Except.error (JsThrown.err "NetworkError when attempting to fetch resource.") ∧
    (fetchData networkFailEnv prevState).error =
      some "NetworkError when attempting to fetch resource." ∧
    (fetchData networkFailEnv prevState).error ≠
      some "Failed to fetch data from backend" := by
  refine ⟨rfl, rfl, by decide⟩

/-- C2 (amended): every failing refresh cycle is caught inside the cycle
(`fetchData` is total, so the exception never escapes) and converted to a
display string — the thrown `Error`'s own message when the thrown value is an
`Error` (the fixed message only in the non-success-status case, where the code
itself throws it), and "Unknown error occurred" for a non-`Error` value;
`loading` still ends false. -/
theorem fetchData_catch_conversion (env : CycleEnv) (s0 : ViewState)
    (e : JsThrown) (hfail : fetchDataTry env (cycleStart s0) = Except.error e) :
    (fetchData env s0).error = some e.displayMessage ∧
    (fetchData env s0).loading = false := by
  simp [fetchData, hfail]

/-- Witness for C2's amended theorem at the rejected-fetch environment. -/
theorem fetchData_catch_conversion_witness :
    (fetchData networkFailEnv prevState).error =
      some (JsThrown.err "NetworkError when attempting to fetch resource.").displayMessage ∧
    (fetchData networkFailEnv prevState).loading = false :=
  fetchData_catch_conversion networkFailEnv prevState
    (JsThrown.err "NetworkError when attempting to fetch resource.") rfl

/-- C3: in every refresh cycle in which all three responses succeed and all
three bodies parse, the cycle replaces `health`, `info` and `message`
together with the fetched values, sets `lastRefresh` to the current instant,
and ends with `error` absent and `loading` false. -/
theorem fetchData_success (env : CycleEnv) (s0 : ViewState)
    (hr : FetchResponse HealthData) (ir : FetchResponse InfoData)
    (mr : FetchResponse String)
    (hd : HealthData) (ifd : InfoData) (msg : String)
    (hh : env.healthRes = .ok hr) (hi : env.infoRes = .ok ir)
    (hm : env.messageRes = .ok mr)
    (hok1 : hr.ok = true) (hok2 : ir.ok = true) (hok3 : mr.ok = true)
    (hb1 : hr.body = .ok hd) (hb2 : ir.body = .ok ifd) (hb3 : mr.body = .ok msg) :
    fetchData env s0 =
      { health := some hd
        info := some ifd
        message := msg
        loading := false
        error := none
        lastRefresh := env.now } := by
  simp [fetchData, fetchDataTry, cycleStart, hh, hi, hm, hok1, hok2, hok3,
    hb1, hb2, hb3]

/-- Witness for C3: the spec's concrete scenario, run from the initial state. -/
theorem fetchData_success_witness :
    fetchData okEnv (initialViewState 0) =
      { health := some sampleHealthBody
        info := some sampleInfoBody
        message := "hi"
        loading := false
        error := none
        lastRefresh := okEnv.now } :=
  fetchData_success okEnv (initialViewState 0) _ _ _ sampleHealthBody sampleInfoBody "hi"
    rfl rfl rfl rfl rfl rfl rfl rfl rfl

/-- C4: every refresh cycle begins by setting `loading = true` and clearing
`error`, and ends with `loading = false` on the success path and on every
failure path alike. -/
theorem fetchData_loading_lifecycle (env : CycleEnv) (s0 : ViewState) :
    (cycleStart s0).loading = true ∧ (cycleStart s0).error = none ∧
    (fetchData env s0).loading = false := by
  refine ⟨rfl, rfl, ?_⟩
  unfold fetchData
  cases h : fetchDataTry env (cycleStart s0) <;> simp [h]

/-- C5: `getHealth` always returns `status = "ok"`, and its `uptime` is
non-negative whenever the ambient process uptime counter is; the operation is
a total function with no failure path. -/
theorem getHealth_spec (a : Ambient) (h : 0 ≤ a.uptime) :
    (AppService.getHealth a).status = "ok" ∧
    0 ≤ (AppService.getHealth a).uptime :=
  ⟨rfl, h⟩

/-- Witness for C5 at a concrete ambient. -/
theorem getHealth_spec_witness :
    (0:ℚ) ≤ sampleAmbient.uptime ∧
    ((AppService.getHealth sampleAmbient).status = "ok" ∧
      0 ≤ (AppService.getHealth sampleAmbient).uptime) :=
  ⟨by norm_num [sampleAmbient], getHealth_spec sampleAmbient (by norm_num [sampleAmbient])⟩

/-- C6: every field of `getInfo`'s result is non-empty, for every value of
`NODE_ENV` (set, unset or empty), assuming the runtime version string is
non-empty. -/
theorem getInfo_fields_nonempty (a : Ambient) (h : a.nodeVersion ≠ "") :
    (AppService.getInfo a).name ≠ "" ∧
    (AppService.getInfo a).version ≠ "" ∧
    (AppService.getInfo a).environment ≠ "" ∧
    (AppService.getInfo a).nodeVersion ≠ "" := by
  refine ⟨?_, ?_, ?_, h⟩
  · show ("K8s CI/CD Lab Backend" : String) ≠ ""
    decide
  · show ("1.0.0" : String) ≠ ""
    decide
  · show jsOrDefault a.nodeEnv "development" ≠ ""
    exact jsOrDefault_ne_empty a.nodeEnv "development" (by decide)

/-- Witness for C6 at a concrete ambient. -/
theorem getInfo_fields_nonempty_witness :
    sampleAmbient.nodeVersion ≠ "" ∧
    ((AppService.getInfo sampleAmbient).name ≠ "" ∧
      (AppService.getInfo sampleAmbient).version ≠ "" ∧
      (AppService.getInfo sampleAmbient).environment ≠ "" ∧
      (AppService.getInfo sampleAmbient).nodeVersion ≠ "") :=
  ⟨by decide, getInfo_fields_nonempty sampleAmbient (by decide)⟩

/-- C7: two successive calls against the same configuration (same `NODE_ENV`
and runtime version) with a non-decreasing clock and uptime counter return
field-identical results for the greeting and info endpoints, and a health
snapshot identical except for `timestamp` and `uptime`, which are
monotonically non-decreasing. -/
theorem read_endpoints_idempotent (a1 a2 : Ambient)
    (henv : a1.nodeEnv = a2.nodeEnv) (hver : a1.nodeVersion = a2.nodeVersion)
    (hclock : a1.clock ≤ a2.clock) (hup : a1.uptime ≤ a2.uptime) :
    AppService.getHello a1 = AppService.getHello a2 ∧
    AppService.getInfo a1 = AppService.getInfo a2 ∧
    (AppService.getHealth a1).status = (AppService.getHealth a2).status ∧
    (AppService.getHealth a1).timestamp ≤ (AppService.getHealth a2).timestamp ∧
    (AppService.getHealth a1).uptime ≤ (AppService.getHealth a2).uptime := by
  refine ⟨rfl, ?_, rfl, hclock, hup⟩
  simp [AppService.getInfo, henv, hver]

/-- Witness for C7: the same process observed at two instants. -/
theorem read_endpoints_idempotent_witness :
    (sampleAmbient.nodeEnv = laterAmbient.nodeEnv ∧
      sampleAmbient.nodeVersion = laterAmbient.nodeVersion ∧
      sampleAmbient.clock ≤ laterAmbient.clock ∧
      sampleAmbient.uptime ≤ laterAmbient.uptime) ∧
    (AppService.getHello sampleAmbient = AppService.getHello laterAmbient ∧
      AppService.getInfo sampleAmbient = AppService.getInfo laterAmbient ∧
      (AppService.getHealth sampleAmbient).status =
        (AppService.getHealth laterAmbient).status ∧
      (AppService.getHealth sampleAmbient).timestamp ≤
        (AppService.getHealth laterAmbient).timestamp ∧
      (AppService.getHealth sampleAmbient).uptime ≤
        (AppService.getHealth laterAmbient).uptime) :=
  ⟨⟨rfl, rfl, by norm_num [sampleAmbient, laterAmbient],
      by norm_num [sampleAmbient, laterAmbient]⟩,
    read_endpoints_idempotent sampleAmbient laterAmbient rfl rfl
      (by norm_num [sampleAmbient, laterAmbient])
      (by norm_num [sampleAmbient, laterAmbient])⟩

/-- C8: `formatUptime` maps 3661 seconds to exactly "1h 1m 1s". -/
theorem formatUptime_3661 : formatUptime 3661 = "1h 1m 1s" := by
  have h1 : (⌊(3661:ℚ)/3600⌋ : ℤ) = 1 := by rw [Int.floor_eq_iff]; norm_num
  have h2 : jsMod 3661 3600 = 61 := by
    unfold jsMod jsTrunc
    rw [if_pos (by norm_num), h1]
    norm_num
  have h3 : jsMod 3661 60 = 1 := by
    unfold jsMod jsTrunc
    rw [if_pos (by norm_num)]
    have h : (⌊(3661:ℚ)/60⌋ : ℤ) = 61 := by rw [Int.floor_eq_iff]; norm_num
    rw [h]; norm_num
  unfold formatUptime
  rw [h1, h2, h3]
  norm_num
  rfl

/-- C9: for every non-negative rational number of seconds, `formatUptime`
renders exactly the three floored components, the minutes and seconds
components lie in 0..59, the hours component is non-negative, and
3600·h + 60·m + sec equals the floor of the input. -/
theorem formatUptime_spec (s : ℚ) (hs : 0 ≤ s) :
    formatUptime s =
      toString ⌊s / 3600⌋ ++ "h " ++ toString ⌊jsMod s 3600 / 60⌋ ++ "m " ++
        toString ⌊jsMod s 60⌋ ++ "s" ∧
    0 ≤ ⌊s / 3600⌋ ∧
    0 ≤ ⌊jsMod s 3600 / 60⌋ ∧ ⌊jsMod s 3600 / 60⌋ ≤ 59 ∧
    0 ≤ ⌊jsMod s 60⌋ ∧ ⌊jsMod s 60⌋ ≤ 59 ∧
    3600 * ⌊s / 3600⌋ + 60 * ⌊jsMod s 3600 / 60⌋ + ⌊jsMod s 60⌋ = ⌊s⌋ := by
  have h3600 : (0:ℚ) < 3600 := by norm_num
  have h60 : (0:ℚ) < 60 := by norm_num
  have hm0 : 0 ≤ jsMod s 3600 := jsMod_nonneg s 3600 hs h3600
  have hm1 : jsMod s 3600 < 3600 := jsMod_lt s 3600 hs h3600
  have hs0 : 0 ≤ jsMod s 60 := jsMod_nonneg s 60 hs h60
  have hs1 : jsMod s 60 < 60 := jsMod_lt s 60 hs h60
  refine ⟨rfl, ?_, ?_, ?_, ?_, ?_, ?_⟩
  · exact Int.floor_nonneg.mpr (div_nonneg hs h3600.le)
  · exact Int.floor_nonneg.mpr (div_nonneg hm0 h60.le)
  · have h : ⌊jsMod s 3600 / 60⌋ < 60 := by
      rw [Int.floor_lt, div_lt_iff₀ h60]
      push_cast
      linarith
    omega
  · exact Int.floor_nonneg.mpr hs0
  · have h : ⌊jsMod s 60⌋ < 60 := by
      rw [Int.floor_lt]
      exact_mod_cast hs1
    omega
  · have hmod3600 : jsMod s 3600 = s - 3600 * ⌊s / 3600⌋ :=
      jsMod_of_nonneg s 3600 hs h3600
    have hmod60 : jsMod s 60 = s - 60 * ⌊s / 60⌋ :=
      jsMod_of_nonneg s 60 hs h60
    have hm : ⌊jsMod s 3600 / 60⌋ = ⌊s / 60⌋ - 60 * ⌊s / 3600⌋ := by
      rw [hmod3600]
      have he : (s - 3600 * (⌊s / 3600⌋:ℚ)) / 60 = s / 60 - (60 * ⌊s / 3600⌋ : ℤ) := by
        push_cast
        ring
      rw [he, Int.floor_sub_int]
    have hsec : ⌊jsMod s 60⌋ = ⌊s⌋ - 60 * ⌊s / 60⌋ := by
      rw [hmod60]
      have he : s - 60 * (⌊s / 60⌋:ℚ) = s - (60 * ⌊s / 60⌋ : ℤ) := by push_cast; ring
      rw [he, Int.floor_sub_int]
    rw [hm, hsec]
    ring

/-- Witness for C9 at 3661 seconds. -/
theorem formatUptime_spec_witness :
    (0:ℚ) ≤ 3661 ∧
    (formatUptime 3661 =
        toString ⌊(3661:ℚ) / 3600⌋ ++ "h " ++ toString ⌊jsMod 3661 3600 / 60⌋ ++ "m " ++
          toString ⌊jsMod 3661 60⌋ ++ "s" ∧
      0 ≤ ⌊(3661:ℚ) / 3600⌋ ∧
      0 ≤ ⌊jsMod (3661:ℚ) 3600 / 60⌋ ∧ ⌊jsMod (3661:ℚ) 3600 / 60⌋ ≤ 59 ∧
      0 ≤ ⌊jsMod (3661:ℚ) 60⌋ ∧ ⌊jsMod (3661:ℚ) 60⌋ ≤ 59 ∧
      3600 * ⌊(3661:ℚ) / 3600⌋ + 60 * ⌊jsMod (3661:ℚ) 3600 / 60⌋ +
          ⌊jsMod (3661:ℚ) 60⌋ = ⌊(3661:ℚ)⌋) :=
  ⟨by norm_num, formatUptime_spec 3661 (by norm_num)⟩

/-- C10: when `NODE_ENV` is unset or set to the empty string, `getInfo`
returns `environment = "development"`; in particular the field is never
empty. -/
theorem getInfo_environment_default (a : Ambient)
    (h : a.nodeEnv = none ∨ a.nodeEnv = some "") :
    (AppService.getInfo a).environment = "development" ∧
    (AppService.getInfo a).environment ≠ "" := by
  rcases h with h | h <;> simp [AppService.getInfo, jsOrDefault, h]

/-- Witness for C10 with `NODE_ENV` explicitly the empty string. -/
theorem getInfo_environment_default_witness :
    (emptyEnvAmbient.nodeEnv = none ∨ emptyEnvAmbient.nodeEnv = some "") ∧
    ((AppService.getInfo emptyEnvAmbient).environment = "development" ∧
      (AppService.getInfo emptyEnvAmbient).environment ≠ "") :=
  ⟨Or.inr rfl, getInfo_environment_default emptyEnvAmbient (Or.inr rfl)⟩
